/-
Verification development for the UniEats backend (server.js, db.js).

The authentication core is the passport OIDC verify callback in server.js:
it extracts an external identity from the provider profile, reconciles it
with the `users` table (lookup by azure_oid, insert on absence, update on
drift), and hands the resolved local user to the session layer
(serializeUser / deserializeUser).  The HTTP layer exposes /api/user,
/logout and /login-failed.

We embed that code shallowly: SQL queries against the `users` table become
pure operations on a `Directory` value, each database round trip is
recorded in a trace of `DbOp` so that "no retry" and "no write" statements
are expressible, and JavaScript truthiness of the optional profile fields
is modelled explicitly (absent or empty string is falsy).
-/
import Mathlib

namespace UniEats

/-- A provider profile as consumed by the verify callback: the fields the
code reads are `profile.oid`, `profile.upn`, `profile._json?.email`,
`profile.emails?.[0]?.value` and `profile.displayName`; each may be absent. -/
structure Profile where
  oid : Option String
  upn : Option String
  jsonEmail : Option String
  emailsFirst : Option String
  displayName : Option String
deriving DecidableEq, Repr

/-- A row of the `users` table.  The column set follows the INSERT/UPDATE
statements in server.js together with the columns the routes read
(`id`, `azure_oid`, `email`, `name`, `role`, timestamps). -/
structure LocalUser where
  id : Nat
  azure_oid : String
  email : String
  name : String
  role : Option String
  created_at : Nat
  updated_at : Nat
deriving DecidableEq, Repr

/-- The `users` table: its rows plus the next locally assigned id. -/
structure Directory where
  users : List LocalUser
  nextId : Nat
deriving DecidableEq, Repr

/-- One database round trip issued by the verify callback, recorded so that
statements about which queries ran (and how often) can be made. -/
inductive DbOp where
  | select (oid : String)
  | insert (oid email name : String)
  | update (id : Nat) (name email : String)
deriving DecidableEq, Repr

/-- Errors thrown by `db.query` and caught by the verify callback's catch
block: the pool being unreachable, or — modelled from the spec, since the
schema file is not in the source tree — the uniqueness constraint on
`azure_oid` rejecting a duplicate insert. -/
inductive DbError where
  | unavailable
  | uniqueViolation
deriving DecidableEq, Repr

/-- The two failure modes of the verify callback: the explicit
`missing required identifiers` error, and a database error passed to
`done(err, null)` by the catch block. -/
inductive VerifyError where
  | missingIdentifier
  | db (e : DbError)
deriving DecidableEq, Repr

/-- JavaScript truthiness of an optional string field: absent
(`undefined`) and the empty string are falsy. -/
def truthy : Option String → Bool
  | none => false
  | some s => !(s == "")

/-- JavaScript `a || b` on optional string fields: `b` is used when `a`
is absent or the empty string. -/
def jsOr (a b : Option String) : Option String :=
  match a with
  | some s => if s = "" then b else some s
  | none => b

/-- `profile.upn || profile._json?.email || profile.emails?.[0]?.value`. -/
def extractEmail (p : Profile) : Option String :=
  jsOr p.upn (jsOr p.jsonEmail p.emailsFirst)

/-- `profile.displayName || 'UniEats User'`. -/
def extractName (p : Profile) : String :=
  match p.displayName with
  | some s => if s = "" then "UniEats User" else s
  | none => "UniEats User"

/-- The guard `if (!azureOid || !email)` in the verify callback, phrased
positively: both the subject id and the extracted email are truthy. -/
def hasIdentifiers (p : Profile) : Bool :=
  truthy p.oid && truthy (extractEmail p)

/-- `SELECT * FROM users WHERE azure_oid = $1` followed by `rows[0]`:
the first row whose `azure_oid` matches. -/
def findByOid (d : Directory) (oid : String) : Option LocalUser :=
  d.users.find? (fun u => u.azure_oid == oid)

/-- `INSERT INTO users (azure_oid, email, name) VALUES ($1,$2,$3) RETURNING *`.
Modelled from the spec for the parts the schema file would fix: `id` is
locally assigned (`nextId`), timestamps default to the insertion time,
`role` to its column default, and a uniqueness constraint on `azure_oid`
makes a duplicate insert fail. -/
def insertUser (d : Directory) (oid email name : String) (now : Nat) :
    Except DbError (LocalUser × Directory) :=
  if d.users.any (fun u => u.azure_oid == oid) then
    .error .uniqueViolation
  else
    let u : LocalUser :=
      { id := d.nextId, azure_oid := oid, email := email, name := name
        role := none, created_at := now, updated_at := now }
    .ok (u, { users := d.users ++ [u], nextId := d.nextId + 1 })

/-- The effect of the UPDATE statement on a single row: rows whose `id`
matches get the new name, email and `updated_at`; others are untouched. -/
def applyUpdate (uid : Nat) (name email : String) (now : Nat) (u : LocalUser) : LocalUser :=
  if u.id == uid then { u with name := name, email := email, updated_at := now } else u

/-- `UPDATE users SET name=$1, email=$2, updated_at=NOW() WHERE id=$3
RETURNING *` followed by `rows[0]`. -/
def updateUser (d : Directory) (uid : Nat) (name email : String) (now : Nat) :
    Option LocalUser × Directory :=
  let users := d.users.map (applyUpdate uid name email now)
  (users.find? (fun u => u.id == uid), { d with users := users })

/-- The OIDC verify callback of server.js (the User Directory `resolve`
operation).  `mid` is the set of rows committed by concurrent writers in
the window between this call's lookup and its insert (empty in a
sequential run); `ok0`/`ok1` say whether the first/second database round
trip reaches the store (`false` makes `db.query` throw, landing in the
catch block).  Returns the value passed to `done`, the resulting table
state, and the trace of attempted database operations. -/
def resolve (d : Directory) (mid : List LocalUser) (ok0 ok1 : Bool)
    (p : Profile) (now : Nat) :
    Except VerifyError (Option LocalUser) × Directory × List DbOp :=
  let email := extractEmail p
  let name := extractName p
  if hasIdentifiers p then
    let oidStr := p.oid.getD ""
    let emailStr := email.getD ""
    if ok0 then
      match findByOid d oidStr with
      | none =>
        let d1 : Directory := { users := d.users ++ mid, nextId := d.nextId + mid.length }
        if ok1 then
          match insertUser d1 oidStr emailStr name now with
          | .error e => (.error (.db e), d1, [.select oidStr, .insert oidStr emailStr name])
          | .ok (u, d2) => (.ok (some u), d2, [.select oidStr, .insert oidStr emailStr name])
        else
          (.error (.db .unavailable), d1, [.select oidStr, .insert oidStr emailStr name])
      | some u =>
        if u.name ≠ name ∨ u.email ≠ emailStr then
          if ok1 then
            let r := updateUser d u.id name emailStr now
            (.ok r.1, r.2, [.select oidStr, .update u.id name emailStr])
          else
            (.error (.db .unavailable), d, [.select oidStr, .update u.id name emailStr])
        else
          (.ok (some u), d, [.select oidStr])
    else
      (.error (.db .unavailable), d, [.select oidStr])
  else
    (.error .missingIdentifier, d, [])

/-- `passport.serializeUser`: the session stores `user.id`. -/
def serializeUser (u : LocalUser) : Nat := u.id

/-- `SELECT * FROM users WHERE id = $1` followed by `rows[0]`, as used by
`deserializeUser`. -/
def findById (d : Directory) (uid : Nat) : Option LocalUser :=
  d.users.find? (fun u => u.id == uid)

/-- `passport.deserializeUser`: looks the stored id up; `user || false`
turns an absent row into "no user" rather than an error, while a thrown
database error is passed to `done(err, null)`. -/
def deserializeUser (d : Directory) (avail : Bool) (uid : Nat) :
    Except DbError (Option LocalUser) :=
  if avail then .ok (findById d uid) else .error .unavailable

/-- The session cookie's `maxAge`: 24 hours in milliseconds. -/
def sessionMaxAgeMs : Nat := 24 * 60 * 60 * 1000

/-- One record of the session store: session id, serialized user id,
absolute expiry time. -/
structure SessionRecord where
  sid : String
  uid : Nat
  expiry : Nat
deriving DecidableEq, Repr

/-- Modelled from the spec: the Session Authority `establish` operation —
express-session plus `serializeUser` store the mapping
sessionId → user.id with an expiry of `maxAge` from now. -/
def establish (st : List SessionRecord) (sid : String) (u : LocalUser) (now : Nat) :
    List SessionRecord :=
  { sid := sid, uid := serializeUser u, expiry := now + sessionMaxAgeMs } :: st

/-- Modelled from the spec: the session-store lookup half of `validate` —
an existing, unexpired session yields its stored user id. -/
def lookupSession (st : List SessionRecord) (sid : String) (now : Nat) : Option Nat :=
  match st.find? (fun r => r.sid == sid) with
  | some r => if now < r.expiry then some r.uid else none
  | none => none

/-- The Session Authority `validate` operation: session-store lookup
(modelled from the spec) followed by the source's `deserializeUser`. -/
def validateSession (st : List SessionRecord) (d : Directory) (avail : Bool)
    (now : Nat) (sid : String) : Except DbError (Option LocalUser) :=
  match lookupSession st sid now with
  | some uid => deserializeUser d avail uid
  | none => .ok none

/-- Modelled from the spec: the Session Authority `destroy` operation —
`req.session.destroy` removes the session record. -/
def destroySession (st : List SessionRecord) (sid : String) : List SessionRecord :=
  st.filter (fun r => r.sid != sid)

/-- The user object serialized into the /api/user response body. -/
structure UserView where
  id : Nat
  name : String
  email : String
  role : Option String
deriving DecidableEq, Repr

/-- The JSON responses /api/user can produce. -/
inductive ApiUserResponse where
  | ok (status : Nat) (success : Bool) (user : UserView)
  | err (status : Nat) (success : Bool) (message : String)
deriving DecidableEq, Repr

/-- The GET /api/user handler: `req.isAuthenticated()` is true exactly
when session deserialization attached a user to the request. -/
def apiUserHandler (requser : Option LocalUser) : ApiUserResponse :=
  match requser with
  | some u => .ok 200 true { id := u.id, name := u.name, email := u.email, role := u.role }
  | none => .err 401 false "Not authenticated"

/-- A full GET /api/user request: the session middleware resolves the
request's session cookie (if any) to a user, then the handler runs; a
database error during deserialization aborts the request instead. -/
def processApiUser (d : Directory) (st : List SessionRecord) (avail : Bool)
    (now : Nat) (sid : Option String) : Except DbError ApiUserResponse :=
  match sid with
  | some s => (validateSession st d avail now s).map apiUserHandler
  | none => .ok (apiUserHandler none)

/-- The `failureRedirect` configured on `passport.authenticate`. -/
def authFailureRedirect : String := "/login-failed"

/-- The GET /login-failed route: status and body. -/
structure HtmlResponse where
  status : Nat
  body : String
deriving DecidableEq, Repr

/-- The GET /login-failed handler. -/
def loginFailedRoute : HtmlResponse :=
  { status := 401
    body := "<h1>Login Failed</h1><p>There was an error authenticating. Please check your terminal logs and Azure configuration.</p><a href=\"/\">Home</a>" }

/-- No two rows of the table share an `azure_oid`. -/
def NoDupOids (l : List LocalUser) : Prop :=
  l.Pairwise (fun a b => a.azure_oid ≠ b.azure_oid)

/-- The row the INSERT statement creates for profile `p` against table
state `d` at time `now` (abbreviation used to state branch equations). -/
def newUser (d : Directory) (p : Profile) (now : Nat) : LocalUser :=
  { id := d.nextId, azure_oid := p.oid.getD "", email := (extractEmail p).getD ""
    name := extractName p, role := none, created_at := now, updated_at := now }

lemma applyUpdate_id (uid : Nat) (nm em : String) (now : Nat) (u : LocalUser) :
    (applyUpdate uid nm em now u).id = u.id := by
  unfold applyUpdate; split <;> rfl

lemma applyUpdate_oid (uid : Nat) (nm em : String) (now : Nat) (u : LocalUser) :
    (applyUpdate uid nm em now u).azure_oid = u.azure_oid := by
  unfold applyUpdate; split <;> rfl

lemma applyUpdate_self (uid : Nat) (nm em : String) (now : Nat) (u : LocalUser)
    (h : u.id = uid) :
    applyUpdate uid nm em now u = { u with name := nm, email := em, updated_at := now } := by
  unfold applyUpdate
  simp [h]

/-- In a list of rows with pairwise distinct ids, searching for the id of a
member returns that member. -/
lemma find?_id_of_mem_pairwise {l : List LocalUser}
    (hp : l.Pairwise (fun a b => a.id ≠ b.id)) {u : LocalUser} (hm : u ∈ l) :
    l.find? (fun v => v.id == u.id) = some u := by
  induction l with
  | nil => cases hm
  | cons a tl ih =>
    rcases List.pairwise_cons.mp hp with ⟨ha, hp'⟩
    rcases List.mem_cons.mp hm with rfl | hm'
    · simp
    · have hne : a.id ≠ u.id := ha u hm'
      rw [List.find?_cons_of_neg _ (by simpa using hne)]
      exact ih hp' hm'

/-- Distinct oids plus at least one match means the filter by that oid has
exactly one row. -/
lemma filter_oid_length_one {l : List LocalUser} {o : String}
    (hp : NoDupOids l) (ha : ∃ u ∈ l, u.azure_oid = o) :
    (l.filter (fun u => u.azure_oid == o)).length = 1 := by
  induction l with
  | nil => rcases ha with ⟨u, hu, _⟩; cases hu
  | cons a tl ih =>
    rcases List.pairwise_cons.mp hp with ⟨hfa, hp'⟩
    by_cases hao : a.azure_oid = o
    · have htl : tl.filter (fun u => u.azure_oid == o) = [] := by
        rw [List.filter_eq_nil_iff]
        intro x hx
        simpa using fun hxo => (hfa x hx) (hao.trans hxo.symm)
      simp [List.filter_cons, hao, htl]
    · rcases ha with ⟨u, hu, huo⟩
      rcases List.mem_cons.mp hu with rfl | hu'
      · exact absurd huo hao
      · have := ih hp' ⟨u, hu', huo⟩
        simpa [List.filter_cons, hao] using this

/-- The predicate rewriting that lets `find?` commute with the row-level
UPDATE map when searching by id. -/
lemma find?_map_applyUpdate_id (l : List LocalUser) (uid : Nat) (nm em : String) (now : Nat) :
    (l.map (applyUpdate uid nm em now)).find? (fun v => v.id == uid)
      = (l.find? (fun v => v.id == uid)).map (applyUpdate uid nm em now) := by
  have hp : ((fun v : LocalUser => v.id == uid) ∘ applyUpdate uid nm em now)
      = (fun v : LocalUser => v.id == uid) := by
    funext x
    simp [Function.comp, applyUpdate_id]
  rw [List.find?_map, hp]

/-- Likewise when searching by azure_oid, which the UPDATE never touches. -/
lemma find?_map_applyUpdate_oid (l : List LocalUser) (uid : Nat) (nm em : String)
    (now : Nat) (o : String) :
    (l.map (applyUpdate uid nm em now)).find? (fun v => v.azure_oid == o)
      = (l.find? (fun v => v.azure_oid == o)).map (applyUpdate uid nm em now) := by
  have hp : ((fun v : LocalUser => v.azure_oid == o) ∘ applyUpdate uid nm em now)
      = (fun v : LocalUser => v.azure_oid == o) := by
    funext x
    simp [Function.comp, applyUpdate_oid]
  rw [List.find?_map, hp]

/-- Branch equation: first-time resolve (sequential, store up) inserts the
new row and returns it. -/
lemma resolve_insert_eq (d : Directory) (p : Profile) (now : Nat)
    (h : hasIdentifiers p = true) (hc : findByOid d (p.oid.getD "") = none) :
    resolve d [] true true p now
      = (.ok (some (newUser d p now)),
         { users := d.users ++ [newUser d p now], nextId := d.nextId + 1 },
         [.select (p.oid.getD ""),
          .insert (p.oid.getD "") ((extractEmail p).getD "") (extractName p)]) := by
  have hno : (d.users.any fun u => u.azure_oid == p.oid.getD "") = false := by
    rw [List.any_eq_false]
    intro x hx
    exact List.find?_eq_none.mp hc x hx
  simp [resolve, h, hc, insertUser, hno, newUser]

/-- Branch equation: the missing-identifier guard fires before any query. -/
lemma resolve_missing_eq (d : Directory) (mid : List LocalUser) (ok0 ok1 : Bool)
    (p : Profile) (now : Nat) (h : hasIdentifiers p = false) :
    resolve d mid ok0 ok1 p now = (.error .missingIdentifier, d, []) := by
  simp [resolve, h]

/-- Branch equation: the lookup query throwing ends the callback at once. -/
lemma resolve_unavail0_eq (d : Directory) (mid : List LocalUser) (ok1 : Bool)
    (p : Profile) (now : Nat) (h : hasIdentifiers p = true) :
    resolve d mid false ok1 p now
      = (.error (.db .unavailable), d, [.select (p.oid.getD "")]) := by
  simp [resolve, h]

/-- Branch equation: the insert query throwing ends the callback. -/
lemma resolve_none_unavail1_eq (d : Directory) (p : Profile) (now : Nat)
    (h : hasIdentifiers p = true) (hc : findByOid d (p.oid.getD "") = none) :
    resolve d [] true false p now
      = (.error (.db .unavailable), d,
         [.select (p.oid.getD ""),
          .insert (p.oid.getD "") ((extractEmail p).getD "") (extractName p)]) := by
  simp [resolve, h, hc]

/-- Branch equation: the update query throwing ends the callback. -/
lemma resolve_update_unavail1_eq (d : Directory) (p : Profile) (now : Nat) (u : LocalUser)
    (h : hasIdentifiers p = true) (hc : findByOid d (p.oid.getD "") = some u)
    (hch : u.name ≠ extractName p ∨ u.email ≠ (extractEmail p).getD "") :
    resolve d [] true false p now
      = (.error (.db .unavailable), d,
         [.select (p.oid.getD ""),
          .update u.id (extractName p) ((extractEmail p).getD "")]) := by
  simp [resolve, h, hc, hch]

/-- Branch equation: resolve on a found row whose name and email already
match returns it as-is with no write. -/
lemma resolve_nochange_eq (d : Directory) (ok1 : Bool) (p : Profile) (now : Nat) (u : LocalUser)
    (h : hasIdentifiers p = true) (hc : findByOid d (p.oid.getD "") = some u)
    (hn : u.name = extractName p) (he : u.email = (extractEmail p).getD "") :
    resolve d [] true ok1 p now = (.ok (some u), d, [.select (p.oid.getD "")]) := by
  simp [resolve, h, hc, hn, he]

/-- Branch equation: resolve on a found row with drifted name or email
runs the UPDATE and returns its result row. -/
lemma resolve_update_eq (d : Directory) (p : Profile) (now : Nat) (u : LocalUser)
    (h : hasIdentifiers p = true) (hc : findByOid d (p.oid.getD "") = some u)
    (hch : u.name ≠ extractName p ∨ u.email ≠ (extractEmail p).getD "") :
    resolve d [] true true p now
      = (.ok ((d.users.map (applyUpdate u.id (extractName p) ((extractEmail p).getD "") now)).find?
            (fun v => v.id == u.id)),
         { users := d.users.map (applyUpdate u.id (extractName p) ((extractEmail p).getD "") now),
           nextId := d.nextId },
         [.select (p.oid.getD ""),
          .update u.id (extractName p) ((extractEmail p).getD "")]) := by
  simp [resolve, h, hc, hch, updateUser]

lemma jsOr_of_truthy {a : Option String} (ha : truthy a = true) (b : Option String) :
    jsOr a b = a := by
  cases a with
  | none => cases ha
  | some s =>
    have hs : ¬s = "" := by simpa [truthy] using ha
    simp [jsOr, hs]

lemma jsOr_of_falsy {a : Option String} (ha : truthy a = false) (b : Option String) :
    jsOr a b = b := by
  cases a with
  | none => rfl
  | some s =>
    have hs : s = "" := by simpa [truthy] using ha
    simp [jsOr, hs]

/-- C4: a provider profile lacking a usable subject id or email makes the
verify callback fail with the missing-identifier error before any database
access — empty operation trace, table unchanged — and authentication
failures redirect to /login-failed, which answers 401. -/
theorem missingIdentifier_aborts_before_directory
    (d : Directory) (mid : List LocalUser) (ok0 ok1 : Bool) (p : Profile) (now : Nat)
    (h : hasIdentifiers p = false) :
    resolve d mid ok0 ok1 p now = (.error .missingIdentifier, d, []) ∧
    authFailureRedirect = "/login-failed" ∧ loginFailedRoute.status = 401 := by
  refine ⟨?_, rfl, rfl⟩
  simp [resolve, h]

theorem missingIdentifier_aborts_before_directory_witness :
    resolve ⟨[], 1⟩ [] true true ⟨some "oid-1", none, none, none, some "Alice"⟩ 0
      = (.error .missingIdentifier, ⟨[], 1⟩, []) ∧
    authFailureRedirect = "/login-failed" ∧ loginFailedRoute.status = 401 :=
  missingIdentifier_aborts_before_directory _ _ _ _ _ _ (by decide)

/-- C6: GET /api/user answers 200 with success true and the user's id,
name, email and role when the request's session resolves to a user, and
401 with success false and message "Not authenticated" otherwise
(non-resolving or absent session). -/
theorem apiUser_response_dichotomy (d : Directory) (st : List SessionRecord)
    (now : Nat) (s : String) :
    (∀ u, validateSession st d true now s = .ok (some u) →
      processApiUser d st true now (some s)
        = .ok (.ok 200 true ⟨u.id, u.name, u.email, u.role⟩)) ∧
    (validateSession st d true now s = .ok none →
      processApiUser d st true now (some s) = .ok (.err 401 false "Not authenticated")) ∧
    processApiUser d st true now none = .ok (.err 401 false "Not authenticated") := by
  refine ⟨?_, ?_, rfl⟩
  · intro u hu
    simp [processApiUser, hu, apiUserHandler, Except.map]
  · intro hn
    simp [processApiUser, hn, apiUserHandler, Except.map]

theorem apiUser_response_dichotomy_witness :
    processApiUser ⟨[⟨1, "oid-1", "a@uni.edu", "Alice", none, 0, 0⟩], 2⟩
        [⟨"sid-1", 1, 100⟩] true 0 (some "sid-1")
      = .ok (.ok 200 true ⟨1, "Alice", "a@uni.edu", none⟩) ∧
    processApiUser ⟨[⟨1, "oid-1", "a@uni.edu", "Alice", none, 0, 0⟩], 2⟩
        [⟨"sid-1", 1, 100⟩] true 0 (some "other")
      = .ok (.err 401 false "Not authenticated") :=
  ⟨(apiUser_response_dichotomy ⟨[⟨1, "oid-1", "a@uni.edu", "Alice", none, 0, 0⟩], 2⟩
        [⟨"sid-1", 1, 100⟩] 0 "sid-1").1
      ⟨1, "oid-1", "a@uni.edu", "Alice", none, 0, 0⟩ rfl,
   (apiUser_response_dichotomy ⟨[⟨1, "oid-1", "a@uni.edu", "Alice", none, 0, 0⟩], 2⟩
        [⟨"sid-1", 1, 100⟩] 0 "other").2.1 rfl⟩

/-- C7: establishing a session for a user present in the directory and
validating the resulting session id returns a user with the same id, and
validating any session id after destroying it returns absent. -/
theorem session_establish_validate_destroy (d : Directory) (st : List SessionRecord)
    (sid : String) (u : LocalUser) (now0 now : Nat)
    (hu : u ∈ d.users) (hnow : now < now0 + sessionMaxAgeMs) :
    (∃ v, validateSession (establish st sid u now0) d true now sid = .ok (some v)
        ∧ v.id = u.id) ∧
    ∀ st2 sid2 now2, validateSession (destroySession st2 sid2) d true now2 sid2 = .ok none := by
  constructor
  · have hf : List.find? (fun r => r.sid == sid) (establish st sid u now0)
        = some ⟨sid, serializeUser u, now0 + sessionMaxAgeMs⟩ := by
      simp [establish]
    have h1 : lookupSession (establish st sid u now0) sid now = some u.id := by
      simp [lookupSession, hf, hnow, serializeUser]
    have hv0 : (d.users.find? (fun v => v.id == u.id)).isSome :=
      List.find?_isSome.mpr ⟨u, hu, by simp⟩
    rcases Option.isSome_iff_exists.mp hv0 with ⟨v, hv⟩
    refine ⟨v, ?_, ?_⟩
    · simp [validateSession, h1, deserializeUser, findById, hv]
    · simpa using List.find?_some hv
  · intro st2 sid2 now2
    have h2 : List.find? (fun r => r.sid == sid2) (destroySession st2 sid2) = none := by
      rw [List.find?_eq_none]
      intro x hx
      have hxm := (List.mem_filter.mp hx).2
      simpa using hxm
    simp only [validateSession, lookupSession]
    rw [h2]

theorem session_establish_validate_destroy_witness :
    (∃ v, validateSession
        (establish [] "sid-1" ⟨1, "oid-1", "a@uni.edu", "Alice", none, 0, 0⟩ 0)
        ⟨[⟨1, "oid-1", "a@uni.edu", "Alice", none, 0, 0⟩], 2⟩ true 5 "sid-1"
        = .ok (some v) ∧ v.id = 1) ∧
    ∀ st2 sid2 now2, validateSession (destroySession st2 sid2)
        ⟨[⟨1, "oid-1", "a@uni.edu", "Alice", none, 0, 0⟩], 2⟩ true now2 sid2 = .ok none :=
  session_establish_validate_destroy _ [] "sid-1" _ 0 5 (by decide) (by decide)

/-- C8: with the store unreachable, the verify callback surfaces the
database error to `done`: the failed lookup, create or update is attempted
exactly once (no retry appears in the trace), no row is committed by the
failing call, and no user is returned. -/
theorem directoryUnavailable_surfaced (d : Directory) (mid : List LocalUser)
    (ok1 : Bool) (p : Profile) (now : Nat) (h : hasIdentifiers p = true) :
    resolve d mid false ok1 p now
      = (.error (.db .unavailable), d, [.select (p.oid.getD "")]) ∧
    (findByOid d (p.oid.getD "") = none →
      resolve d [] true false p now
        = (.error (.db .unavailable), d,
           [.select (p.oid.getD ""),
            .insert (p.oid.getD "") ((extractEmail p).getD "") (extractName p)])) ∧
    (∀ u, findByOid d (p.oid.getD "") = some u →
      (u.name ≠ extractName p ∨ u.email ≠ (extractEmail p).getD "") →
      resolve d [] true false p now
        = (.error (.db .unavailable), d,
           [.select (p.oid.getD ""),
            .update u.id (extractName p) ((extractEmail p).getD "")])) := by
  refine ⟨?_, ?_, ?_⟩
  · simp [resolve, h]
  · intro hc
    simp [resolve, h, hc]
  · intro u hc hch
    simp [resolve, h, hc, hch]

theorem directoryUnavailable_surfaced_witness :
    resolve ⟨[], 1⟩ [] false true
        ⟨some "oid-1", some "a@uni.edu", none, none, some "Alice"⟩ 0
      = (.error (.db .unavailable), ⟨[], 1⟩, [.select "oid-1"]) :=
  (directoryUnavailable_surfaced _ _ _ _ _ (by decide)).1

/-- C9: the email recorded for an accepted profile is the first truthy
value among upn, the embedded json email claim and the first emails-list
entry, in that order; a missing displayName defaults to "UniEats User"
instead of failing; and a first-time resolve stores exactly those
extracted values. -/
theorem email_priority_name_default (p : Profile) (d : Directory) (now : Nat) :
    (truthy p.upn = true → extractEmail p = p.upn) ∧
    (truthy p.upn = false → truthy p.jsonEmail = true → extractEmail p = p.jsonEmail) ∧
    (truthy p.upn = false → truthy p.jsonEmail = false → extractEmail p = p.emailsFirst) ∧
    (p.displayName = none → extractName p = "UniEats User") ∧
    (hasIdentifiers p = true → findByOid d (p.oid.getD "") = none →
      ∃ u d2, resolve d [] true true p now
          = (.ok (some u), d2,
             [.select (p.oid.getD ""),
              .insert (p.oid.getD "") ((extractEmail p).getD "") (extractName p)]) ∧
        u.email = (extractEmail p).getD "" ∧ u.name = extractName p) := by
  refine ⟨?_, ?_, ?_, ?_, ?_⟩
  · intro h1
    simp [extractEmail, jsOr_of_truthy h1]
  · intro h1 h2
    simp [extractEmail, jsOr_of_falsy h1, jsOr_of_truthy h2]
  · intro h1 h2
    simp [extractEmail, jsOr_of_falsy h1, jsOr_of_falsy h2]
  · intro h1
    simp [extractName, h1]
  · intro h hc
    exact ⟨newUser d p now, _, resolve_insert_eq d p now h hc, rfl, rfl⟩

theorem email_priority_name_default_witness :
    extractEmail ⟨some "o", some "upn@x", some "j@x", some "e@x", some "D"⟩ = some "upn@x" ∧
    extractName ⟨some "o", none, none, some "e@x", none⟩ = "UniEats User" ∧
    ∃ u d2, resolve ⟨[], 1⟩ [] true true ⟨some "o", none, none, some "e@x", none⟩ 0
        = (.ok (some u), d2, [.select "o", .insert "o" "e@x" "UniEats User"]) ∧
      u.email = "e@x" ∧ u.name = "UniEats User" :=
  ⟨(email_priority_name_default ⟨some "o", some "upn@x", some "j@x", some "e@x", some "D"⟩
      ⟨[], 1⟩ 0).1 (by decide),
   (email_priority_name_default ⟨some "o", none, none, some "e@x", none⟩
      ⟨[], 1⟩ 0).2.2.2.1 rfl,
   (email_priority_name_default ⟨some "o", none, none, some "e@x", none⟩
      ⟨[], 1⟩ 0).2.2.2.2 (by decide) (by decide)⟩

/-- C10: a session whose stored user id matches no directory row
deserializes to "no user" rather than an error, so GET /api/user answers
401 with success false instead of failing. -/
theorem stale_session_yields_401 (d : Directory) (st : List SessionRecord)
    (now : Nat) (sid : String) (uid : Nat)
    (hs : lookupSession st sid now = some uid) (hd : findById d uid = none) :
    validateSession st d true now sid = .ok none ∧
    processApiUser d st true now (some sid) = .ok (.err 401 false "Not authenticated") := by
  have h1 : validateSession st d true now sid = .ok none := by
    simp [validateSession, hs, deserializeUser, hd]
  exact ⟨h1, by simp [processApiUser, h1, apiUserHandler, Except.map]⟩

/-- C1: for a profile with a truthy subject id and email, running the
verify callback twice in a row (sequentially, store up) is idempotent:
the second run issues only the lookup query (no insert, no update), leaves
every row unchanged, and both runs return users with the same id. -/
theorem resolve_idempotent (d : Directory) (p : Profile) (n1 n2 : Nat)
    (h : hasIdentifiers p = true) :
    (resolve (resolve d [] true true p n1).2.1 [] true true p n2).2.1
        = (resolve d [] true true p n1).2.1 ∧
    (resolve (resolve d [] true true p n1).2.1 [] true true p n2).2.2
        = [.select (p.oid.getD "")] ∧
    ∃ u1 u2, (resolve d [] true true p n1).1 = .ok (some u1) ∧
      (resolve (resolve d [] true true p n1).2.1 [] true true p n2).1 = .ok (some u2) ∧
      u2.id = u1.id := by
  rcases hc : findByOid d (p.oid.getD "") with _ | u
  · rw [resolve_insert_eq d p n1 h hc]
    dsimp only
    have hc' : d.users.find? (fun v => v.azure_oid == p.oid.getD "") = none := hc
    have hc2 : findByOid
        { users := d.users ++ [newUser d p n1], nextId := d.nextId + 1 }
        (p.oid.getD "") = some (newUser d p n1) := by
      unfold findByOid
      rw [List.find?_append, hc']
      simp [newUser]
    rw [resolve_nochange_eq _ true p n2 (newUser d p n1) h hc2 rfl rfl]
    exact ⟨rfl, rfl, newUser d p n1, newUser d p n1, rfl, rfl, rfl⟩
  · by_cases hch : u.name = extractName p ∧ u.email = (extractEmail p).getD ""
    · rw [resolve_nochange_eq d true p n1 u h hc hch.1 hch.2]
      dsimp only
      rw [resolve_nochange_eq d true p n2 u h hc hch.1 hch.2]
      exact ⟨rfl, rfl, u, u, rfl, rfl, rfl⟩
    · have hch' : u.name ≠ extractName p ∨ u.email ≠ (extractEmail p).getD "" := by
        rcases not_and_or.mp hch with h' | h'
        · exact .inl h'
        · exact .inr h'
      have hu : u ∈ d.users := List.mem_of_find?_eq_some hc
      rw [resolve_update_eq d p n1 u h hc hch']
      dsimp only
      have hc' : d.users.find? (fun v => v.azure_oid == p.oid.getD "") = some u := hc
      have hc2 : findByOid
          { users := d.users.map (applyUpdate u.id (extractName p) ((extractEmail p).getD "") n1),
            nextId := d.nextId }
          (p.oid.getD "")
          = some (applyUpdate u.id (extractName p) ((extractEmail p).getD "") n1 u) := by
        unfold findByOid
        rw [find?_map_applyUpdate_oid, hc']
        rfl
      have hself := applyUpdate_self u.id (extractName p) ((extractEmail p).getD "") n1 u rfl
      rw [resolve_nochange_eq _ true p n2 _ h hc2 (by rw [hself]) (by rw [hself])]
      refine ⟨rfl, rfl, ?_⟩
      have hv0 : (d.users.find? (fun v => v.id == u.id)).isSome :=
        List.find?_isSome.mpr ⟨u, hu, by simp⟩
      rcases Option.isSome_iff_exists.mp hv0 with ⟨w, hw⟩
      have hwid : w.id = u.id := by simpa using List.find?_some hw
      have he1 : (d.users.map (applyUpdate u.id (extractName p) ((extractEmail p).getD "") n1)).find?
          (fun v => v.id == u.id)
          = some (applyUpdate u.id (extractName p) ((extractEmail p).getD "") n1 w) := by
        rw [find?_map_applyUpdate_id, hw]
        rfl
      refine ⟨applyUpdate u.id (extractName p) ((extractEmail p).getD "") n1 w,
        applyUpdate u.id (extractName p) ((extractEmail p).getD "") n1 u, ?_, rfl, ?_⟩
      · rw [he1]
      · rw [applyUpdate_id, applyUpdate_id, hwid]

theorem resolve_idempotent_witness :
    (resolve (resolve ⟨[], 1⟩ [] true true
        ⟨some "oid-1", some "a@uni.edu", none, none, some "Alice"⟩ 3).2.1 [] true true
        ⟨some "oid-1", some "a@uni.edu", none, none, some "Alice"⟩ 7).2.1
      = (resolve ⟨[], 1⟩ [] true true
        ⟨some "oid-1", some "a@uni.edu", none, none, some "Alice"⟩ 3).2.1 ∧
    (resolve (resolve ⟨[], 1⟩ [] true true
        ⟨some "oid-1", some "a@uni.edu", none, none, some "Alice"⟩ 3).2.1 [] true true
        ⟨some "oid-1", some "a@uni.edu", none, none, some "Alice"⟩ 7).2.2
      = [.select "oid-1"] ∧
    ∃ u1 u2, (resolve ⟨[], 1⟩ [] true true
        ⟨some "oid-1", some "a@uni.edu", none, none, some "Alice"⟩ 3).1 = .ok (some u1) ∧
      (resolve (resolve ⟨[], 1⟩ [] true true
        ⟨some "oid-1", some "a@uni.edu", none, none, some "Alice"⟩ 3).2.1 [] true true
        ⟨some "oid-1", some "a@uni.edu", none, none, some "Alice"⟩ 7).1 = .ok (some u2) ∧
      u2.id = u1.id :=
  resolve_idempotent ⟨[], 1⟩ ⟨some "oid-1", some "a@uni.edu", none, none, some "Alice"⟩
    3 7 (by decide)

/-- C5: on a stored user whose name or email drifted from the identity's
current values, the verify callback runs the UPDATE: the returned row
keeps the user's id and azure_oid, carries the new name and email and the
new updated_at, and sits in the resulting table. -/
theorem resolve_update_drift (d : Directory) (p : Profile) (now : Nat) (u : LocalUser)
    (hid : d.users.Pairwise (fun a b => a.id ≠ b.id))
    (h : hasIdentifiers p = true)
    (hc : findByOid d (p.oid.getD "") = some u)
    (hch : u.name ≠ extractName p ∨ u.email ≠ (extractEmail p).getD "") :
    ∃ u' d', resolve d [] true true p now
        = (.ok (some u'), d',
           [.select (p.oid.getD ""),
            .update u.id (extractName p) ((extractEmail p).getD "")]) ∧
      u'.id = u.id ∧ u'.azure_oid = u.azure_oid ∧
      u'.name = extractName p ∧ u'.email = (extractEmail p).getD "" ∧
      u'.updated_at = now ∧ u'.created_at = u.created_at ∧ u' ∈ d'.users := by
  have hu : u ∈ d.users := List.mem_of_find?_eq_some hc
  have hfind : d.users.find? (fun v => v.id == u.id) = some u :=
    find?_id_of_mem_pairwise hid hu
  have hr := resolve_update_eq d p now u h hc hch
  rw [find?_map_applyUpdate_id, hfind] at hr
  have hself := applyUpdate_self u.id (extractName p) ((extractEmail p).getD "") now u rfl
  refine ⟨applyUpdate u.id (extractName p) ((extractEmail p).getD "") now u, _, hr,
    applyUpdate_id _ _ _ _ _, applyUpdate_oid _ _ _ _ _, ?_, ?_, ?_, ?_, ?_⟩
  · rw [hself]
  · rw [hself]
  · rw [hself]
  · rw [hself]
  · exact List.mem_map.mpr ⟨u, hu, rfl⟩

theorem resolve_update_drift_witness :
    ∃ u' d', resolve ⟨[⟨1, "oid-1", "a@uni.edu", "Alice", none, 0, 0⟩], 2⟩ [] true true
        ⟨some "oid-1", some "a@uni.edu", none, none, some "Alicia"⟩ 9
        = (.ok (some u'), d', [.select "oid-1", .update 1 "Alicia" "a@uni.edu"]) ∧
      u'.id = 1 ∧ u'.azure_oid = "oid-1" ∧
      u'.name = "Alicia" ∧ u'.email = "a@uni.edu" ∧
      u'.updated_at = 9 ∧ u'.created_at = 0 ∧ u' ∈ d'.users :=
  resolve_update_drift ⟨[⟨1, "oid-1", "a@uni.edu", "Alice", none, 0, 0⟩], 2⟩
    ⟨some "oid-1", some "a@uni.edu", none, none, some "Alicia"⟩ 9
    ⟨1, "oid-1", "a@uni.edu", "Alice", none, 0, 0⟩
    (by simp) (by decide) (by decide) (by decide)

/-- C3: a sequential run of the verify callback preserves uniqueness of
azure_oid across rows, never changes the id or azure_oid of a stored row,
and only issues an INSERT when the lookup found no row for that
azure_oid. -/
theorem resolve_preserves_oid_uniqueness (d : Directory) (p : Profile) (now : Nat)
    (ok0 ok1 : Bool) (hinv : NoDupOids d.users) :
    NoDupOids (resolve d [] ok0 ok1 p now).2.1.users ∧
    (∀ u ∈ d.users, ∃ u' ∈ (resolve d [] ok0 ok1 p now).2.1.users,
        u'.id = u.id ∧ u'.azure_oid = u.azure_oid) ∧
    (∀ o em nm, DbOp.insert o em nm ∈ (resolve d [] ok0 ok1 p now).2.2 →
        findByOid d o = none) := by
  by_cases hI : hasIdentifiers p = true
  · cases ok0 with
    | false =>
      rw [resolve_unavail0_eq d [] ok1 p now hI]
      dsimp only
      refine ⟨hinv, fun u hu => ⟨u, hu, rfl, rfl⟩, ?_⟩
      intro o em nm hmem
      simp at hmem
    | true =>
      rcases hc : findByOid d (p.oid.getD "") with _ | u
      · have hc' : d.users.find? (fun v => v.azure_oid == p.oid.getD "") = none := hc
        have hins : ∀ o em nm,
            DbOp.insert o em nm ∈
              [DbOp.select (p.oid.getD ""),
               DbOp.insert (p.oid.getD "") ((extractEmail p).getD "") (extractName p)] →
            findByOid d o = none := by
          intro o em nm hmem
          rcases List.mem_cons.mp hmem with h1 | h1
          · cases h1
          · rcases List.mem_cons.mp h1 with h2 | h2
            · cases h2
              exact hc
            · cases h2
        cases ok1 with
        | false =>
          rw [resolve_none_unavail1_eq d p now hI hc]
          dsimp only
          exact ⟨hinv, fun u hu => ⟨u, hu, rfl, rfl⟩, hins⟩
        | true =>
          rw [resolve_insert_eq d p now hI hc]
          dsimp only
          refine ⟨?_, fun u hu => ⟨u, List.mem_append_left _ hu, rfl, rfl⟩, hins⟩
          rw [NoDupOids, List.pairwise_append]
          refine ⟨hinv, by simp, ?_⟩
          intro a ha b hb
          have hb' : b = newUser d p now := by simpa using hb
          have hane := List.find?_eq_none.mp hc' a ha
          rw [hb']
          intro hcontra
          exact hane (by simpa [newUser] using hcontra)
      · by_cases hch : u.name = extractName p ∧ u.email = (extractEmail p).getD ""
        · rw [resolve_nochange_eq d ok1 p now u hI hc hch.1 hch.2]
          dsimp only
          refine ⟨hinv, fun v hv => ⟨v, hv, rfl, rfl⟩, ?_⟩
          intro o em nm hmem
          simp at hmem
        · have hch' : u.name ≠ extractName p ∨ u.email ≠ (extractEmail p).getD "" := by
            rcases not_and_or.mp hch with h' | h'
            · exact .inl h'
            · exact .inr h'
          have hupd : ∀ o em nm,
              DbOp.insert o em nm ∈
                [DbOp.select (p.oid.getD ""),
                 DbOp.update u.id (extractName p) ((extractEmail p).getD "")] →
              findByOid d o = none := by
            intro o em nm hmem
            simp at hmem
          cases ok1 with
          | false =>
            rw [resolve_update_unavail1_eq d p now u hI hc hch']
            dsimp only
            exact ⟨hinv, fun v hv => ⟨v, hv, rfl, rfl⟩, hupd⟩
          | true =>
            rw [resolve_update_eq d p now u hI hc hch']
            dsimp only
            refine ⟨?_, ?_, hupd⟩
            · rw [NoDupOids, List.pairwise_map]
              refine hinv.imp ?_
              intro a b hab
              rw [applyUpdate_oid, applyUpdate_oid]
              exact hab
            · intro v hv
              refine ⟨applyUpdate u.id (extractName p) ((extractEmail p).getD "") now v,
                List.mem_map.mpr ⟨v, hv, rfl⟩, applyUpdate_id _ _ _ _ _,
                applyUpdate_oid _ _ _ _ _⟩
  · have hI' : hasIdentifiers p = false := by simpa using hI
    rw [resolve_missing_eq d [] ok0 ok1 p now hI']
    dsimp only
    refine ⟨hinv, fun u hu => ⟨u, hu, rfl, rfl⟩, ?_⟩
    intro o em nm hmem
    simp at hmem

theorem resolve_preserves_oid_uniqueness_witness :
    NoDupOids (resolve ⟨[], 1⟩ [] true true
        ⟨some "oid-1", some "a@uni.edu", none, none, some "Alice"⟩ 0).2.1.users ∧
    (∀ u ∈ ([] : List LocalUser), ∃ u' ∈ (resolve ⟨[], 1⟩ [] true true
        ⟨some "oid-1", some "a@uni.edu", none, none, some "Alice"⟩ 0).2.1.users,
        u'.id = u.id ∧ u'.azure_oid = u.azure_oid) ∧
    (∀ o em nm, DbOp.insert o em nm ∈ (resolve ⟨[], 1⟩ [] true true
        ⟨some "oid-1", some "a@uni.edu", none, none, some "Alice"⟩ 0).2.2 →
        findByOid ⟨[], 1⟩ o = none) :=
  resolve_preserves_oid_uniqueness ⟨[], 1⟩
    ⟨some "oid-1", some "a@uni.edu", none, none, some "Alice"⟩ 0 true true
    List.Pairwise.nil

/-- C2 counterexample: a first-time resolve that loses the insert race
(another writer committed a row for the same azure_oid between lookup and
insert) returns the database error — there is no lookup retry in the
catch block and the existing record is not returned. -/
theorem resolve_race_no_retry_counterexample :
    (resolve ⟨[], 1⟩ [⟨1, "oid-1", "a@uni.edu", "Alice", none, 0, 0⟩] true true
        ⟨some "oid-1", some "a@uni.edu", none, none, some "Alice"⟩ 5).1
      = .error (.db .uniqueViolation) ∧
    (resolve ⟨[], 1⟩ [⟨1, "oid-1", "a@uni.edu", "Alice", none, 0, 0⟩] true true
        ⟨some "oid-1", some "a@uni.edu", none, none, some "Alice"⟩ 5).2.2
      = [.select "oid-1", .insert "oid-1" "a@uni.edu" "Alice"] :=
  ⟨rfl, rfl⟩

/-- C2 amended: when the create step fails on the storage-layer
uniqueness constraint because a concurrent writer already inserted the
row, the verify callback surfaces the error to `done` — one lookup, one
failed insert, no retry, no record returned — and the constraint leaves
exactly one row for that azure_oid. -/
theorem resolve_race_surfaces_create_failure (d : Directory) (mid : List LocalUser)
    (p : Profile) (now : Nat)
    (h : hasIdentifiers p = true)
    (hc : findByOid d (p.oid.getD "") = none)
    (hdup : (d.users ++ mid).any (fun v => v.azure_oid == p.oid.getD "") = true)
    (hnd : NoDupOids (d.users ++ mid)) :
    resolve d mid true true p now
      = (.error (.db .uniqueViolation),
         { users := d.users ++ mid, nextId := d.nextId + mid.length },
         [.select (p.oid.getD ""),
          .insert (p.oid.getD "") ((extractEmail p).getD "") (extractName p)]) ∧
    ((d.users ++ mid).filter (fun v => v.azure_oid == p.oid.getD "")).length = 1 := by
  constructor
  · simp [resolve, h, hc, insertUser, hdup]
  · apply filter_oid_length_one hnd
    rcases List.any_eq_true.mp hdup with ⟨x, hx, hxe⟩
    exact ⟨x, hx, by simpa using hxe⟩

theorem resolve_race_surfaces_create_failure_witness :
    resolve ⟨[], 1⟩ [⟨1, "oid-1", "a@uni.edu", "Alice", none, 0, 0⟩] true true
        ⟨some "oid-1", some "a@uni.edu", none, none, some "Alice"⟩ 5
      = (.error (.db .uniqueViolation),
         ⟨[⟨1, "oid-1", "a@uni.edu", "Alice", none, 0, 0⟩], 2⟩,
         [.select "oid-1", .insert "oid-1" "a@uni.edu" "Alice"]) ∧
    (([⟨1, "oid-1", "a@uni.edu", "Alice", none, 0, 0⟩] : List LocalUser).filter
        (fun v => v.azure_oid == "oid-1")).length = 1 :=
  resolve_race_surfaces_create_failure ⟨[], 1⟩
    [⟨1, "oid-1", "a@uni.edu", "Alice", none, 0, 0⟩]
    ⟨some "oid-1", some "a@uni.edu", none, none, some "Alice"⟩ 5
    (by decide) (by decide) (by decide) (by simp [NoDupOids])

theorem stale_session_yields_401_witness :
    validateSession [⟨"sid-1", 42, 100⟩] ⟨[], 1⟩ true 0 "sid-1" = .ok none ∧
    processApiUser ⟨[], 1⟩ [⟨"sid-1", 42, 100⟩] true 0 (some "sid-1")
      = .ok (.err 401 false "Not authenticated") :=
  stale_session_yields_401 _ _ 0 "sid-1" 42 (by decide) (by decide)

end UniEats
